import Mathlib

/-!
Shallow embedding of the tiered content-risk decision engine
(`core/l1_shield/frame_processor.py`, `core/l2_brain/llm_client.py`,
`core/l3_policy/risk_engine.py`) and proofs about its specified behavior.

Python strings are modelled as `String`/`List Char` (code points), Python ints
as `Int`, floats/timestamps as `ℚ`.  Remote collaborators (YOLO, OCR, the VL
backend) are abstracted as explicit inputs; fallible Python code is modelled
with `Except`.
-/

namespace ContentRisk

/-! ## Python string primitives -/

/-- Whitespace characters recognized by `str.strip()` / `\s` (common subset). -/
def isSpaceC (c : Char) : Bool :=
  c = ' ' || c = '\t' || c = '\n' || c = '\r' || c = '\x0b' || c = '\x0c'

/-- Python `str.strip()` on a list of characters. -/
def pyStrip (l : List Char) : List Char :=
  ((l.dropWhile isSpaceC).reverse.dropWhile isSpaceC).reverse

/-- Python `str.strip()` on `String`. -/
def stripS (s : String) : String := ⟨pyStrip s.data⟩

/-- Python `str.lower()` (ASCII case folding, as in the label / pattern data here). -/
def lowerS (s : String) : String := ⟨s.data.map Char.toLower⟩

/-- Python slicing `s[:n]` on `String`. -/
def takeS (n : Nat) (s : String) : String := ⟨s.data.take n⟩

/-- Python substring test `needle in hay`. -/
def containsSub (needle : List Char) : List Char → Bool
  | [] => needle.isEmpty
  | c :: t => needle.isPrefixOf (c :: t) || containsSub needle t

/-! ## Regex matchers of `ContentReviewer` (`llm_client.py`)

Each Python `re.search` over the concrete patterns of the source is modelled as
a leftmost-match scanner returning the matched substring (`group(0)`). -/

/-- Leftmost match of an alternation of literal strings (pattern order breaks
ties at the same position), as `re.search` does for `RE_MONEY_GAMBLE`. -/
def firstLitMatch (lits : List (List Char)) : List Char → Option (List Char)
  | [] => lits.find? (fun lit => lit.isEmpty)
  | c :: t =>
    match lits.find? (fun lit => lit.isPrefixOf (c :: t)) with
    | some lit => some lit
    | none => firstLitMatch lits t

/-- Leftmost case-insensitive match of an alternation of (lowercase) literal
strings; returns the original-case slice of the haystack. -/
def ciFirstMatch (alts : List (List Char)) : List Char → Option (List Char)
  | [] => none
  | c :: t =>
    match alts.find? (fun a => ((c :: t).take a.length).map Char.toLower == a) with
    | some a => some ((c :: t).take a.length)
    | none => ciFirstMatch alts t

/-- Alternatives of `RE_MONEY_GAMBLE`, in pattern order. -/
def GAMBLE_LITS : List (List Char) :=
  ["下注", "返利", "中奖", "博彩", "百家乐", "彩票", "代充", "充值", "刷单", "返现", "收益"].map String.data

/-- Alternatives of `RE_WECHAT_HINT` (case-insensitive), lower-cased and
deduplicated, in pattern order; `w(e)?chat` expands greedily to
`wechat` then `wchat`. -/
def WECHAT_ALTS : List (List Char) :=
  ["vx", "v信", "威信", "微信", "微x", "wechat", "wchat", "weixin",
   "加v", "加微", "加薇", "加威", "w:"].map String.data

/-- Match of `RE_MONEY_GAMBLE`. -/
def moneyGambleFirst (l : List Char) : Option (List Char) := firstLitMatch GAMBLE_LITS l

/-- Match of `RE_WECHAT_HINT`. -/
def wechatFirst (l : List Char) : Option (List Char) := ciFirstMatch WECHAT_ALTS l

/-- Separator class `[\s\.\-\_]` of `RE_LONG_DIGITS_LOOSE`. -/
def isSepC (c : Char) : Bool := isSpaceC c || c = '.' || c = '-' || c = '_'

/-- Pattern `RE_QQ = (?:qq|Qq|QQ)\s*[:：]?\s*\d{5,12}`: attempt a match anchored at the
head of `l`; returns the matched length. -/
def qqMatchLen (l : List Char) : Option Nat :=
  match l with
  | c0 :: c1 :: rest =>
    if (c0 = 'q' ∧ c1 = 'q') ∨ (c0 = 'Q' ∧ (c1 = 'q' ∨ c1 = 'Q')) then
      let s1 := rest.takeWhile isSpaceC
      let r1 := rest.drop s1.length
      let cl : Nat := match r1 with
        | d :: _ => if d = ':' ∨ d = '：' then 1 else 0
        | [] => 0
      let r2 := r1.drop cl
      let s2 := r2.takeWhile isSpaceC
      let r3 := r2.drop s2.length
      let ds := r3.takeWhile Char.isDigit
      if 5 ≤ ds.length then some (2 + s1.length + cl + s2.length + min ds.length 12)
      else none
    else none
  | _ => none

/-- Leftmost match of `RE_QQ`. -/
def qqFirst : List Char → Option (List Char)
  | [] => none
  | c :: t =>
    match qqMatchLen (c :: t) with
    | some n => some ((c :: t).take n)
    | none => qqFirst t

/-- Python `\w` over the characters occurring here (ASCII word chars and CJK
Unified Ideographs). -/
def isWordC (c : Char) : Bool :=
  c.isAlphanum || c = '_' || (0x4E00 ≤ c.toNat && c.toNat ≤ 0x9FFF)

/-- Core of `RE_PHONE_STRICT`: match `1[3-9]\d{9}(?:\b|[^0-9])` anchored at the
head of `l`; returns the consumed length (11, or 12 when the trailing
`[^0-9]` branch consumes a word character). -/
def phoneCore (l : List Char) : Option Nat :=
  match l with
  | c0 :: c1 :: rest =>
    if c0 = '1' ∧ '3' ≤ c1 ∧ c1 ≤ '9' ∧ 9 ≤ rest.length ∧ (rest.take 9).all Char.isDigit then
      match rest.drop 9 with
      | [] => some 11
      | c :: _ =>
        if ¬ isWordC c then some 11
        else if ¬ c.isDigit then some 12
        else none
    else none
  | _ => none

/-- Leftmost match of `RE_PHONE_STRICT = (?:\b|[^0-9])1[3-9]\d{9}(?:\b|[^0-9])`:
at each position the engine first tries the zero-width `\b` branch, then the
consuming `[^0-9]` branch. -/
def phoneSearch (prev : Option Char) : List Char → Option (List Char)
  | [] => none
  | c :: t =>
    let bOk : Bool := match prev with
      | none => true
      | some pc => ¬ isWordC pc
    (if bOk then (phoneCore (c :: t)).map (fun n => (c :: t).take n) else none) <|>
    (if ¬ c.isDigit then (phoneCore t).map (fun n => (c :: t).take (n + 1)) else none) <|>
    phoneSearch (some c) t

/-- Leftmost match of `RE_PHONE_STRICT`. -/
def phoneFirst (l : List Char) : Option (List Char) := phoneSearch none l

/-- Greedy continuation of the `RE_LONG_DIGITS_LOOSE` tail `(?:[\s\.\-\_]*\d)*`:
returns (number of further digits, consumed length up to the last digit).
Fuelled by the list length. -/
def chainSpanAux : Nat → List Char → Nat × Nat
  | 0, _ => (0, 0)
  | _ + 1, [] => (0, 0)
  | fuel + 1, c :: t =>
    if c.isDigit then
      let r := chainSpanAux fuel t
      (r.1 + 1, 1 + r.2)
    else if isSepC c then
      let r := chainSpanAux fuel t
      if 0 < r.1 then (r.1, 1 + r.2) else (0, 0)
    else (0, 0)

/-- Leftmost match of `RE_LONG_DIGITS_LOOSE = \d(?:[\s\.\-\_]*\d){7,}`. -/
def longDigitsSearch : List Char → Option (List Char)
  | [] => none
  | c :: t =>
    (if c.isDigit then
       let r := chainSpanAux t.length t
       if 7 ≤ r.1 then some ((c :: t).take (1 + r.2)) else none
     else none) <|>
    longDigitsSearch t

/-- Leftmost match of `RE_LONG_DIGITS_LOOSE`. -/
def longDigitsFirst (l : List Char) : Option (List Char) := longDigitsSearch l

/-! ## Data model -/

/-- The canonical evidence record exchanged between L2 and L3 (a Python dict in
the source, with the fields read by `detect_and_judge`). -/
structure L2Record where
  category : String
  risk_score : Int
  evidence_strength : Int
  evidence_spans : List String
  visual_evidence : String
  is_whitelist : Bool
  reason : String
deriving DecidableEq, Repr

/-- Output of `ContentReviewer._extract_rule`. -/
structure RuleOut where
  category : String
  risk_score : Int
  evidence_strength : Int
  evidence_spans : List String
  full_text_raw : String
  full_text_norm : String
deriving DecidableEq, Repr

/-! ## `ContentReviewer._extract_rule` -/

/-- List `SAFE_PHRASES` of `ContentReviewer`. -/
def SAFE_PHRASES : List String :=
  ["欢迎来到直播间", "点点关注", "点个关注", "谢谢大哥", "谢谢老板",
   "宝宝", "家人们", "下单", "拍下", "福利", "上链接", "直播间", "点赞", "关注"]

/-- List `SEX_TERMS` of `ContentReviewer`. -/
def SEX_TERMS : List String :=
  ["月泡", "外围", "包夜", "上门", "裸", "没穿", "露", "约", "xxoo", "换衣服", "坐气球"]

/-- List `AD_TERMS` of `ContentReviewer`. -/
def AD_TERMS : List String :=
  ["私聊", "带走", "进群", "暗号", "口令", "加威", "加微", "加v", "vx", "微信", "w:"]

/-- Confusable-character folding table of `_normalize_text`. -/
def transC (c : Char) : Char :=
  if c = 'O' ∨ c = 'o' then '0'
  else if c = 'I' ∨ c = 'l' ∨ c = '丨' then '1'
  else c

/-- Method `ContentReviewer._normalize_text`: strip, then fold confusables. -/
def normalizeChars (l : List Char) : List Char := (pyStrip l).map transC

/-- The non-empty stripped lines of the recognized text spans
(loop header of `_extract_rule`). -/
def rawLines (texts : List String) : List (List Char) :=
  (texts.map (fun t => pyStrip t.data)).filter (fun l => !l.isEmpty)

/-- The normalized variants of the raw lines. -/
def normLines (texts : List String) : List (List Char) :=
  (rawLines texts).map normalizeChars

/-- Concatenation `full_raw = " ".join(raw_lines)[:800]`. -/
def fullRawT (texts : List String) : List Char :=
  (List.intercalate [' '] (rawLines texts)).take 800

/-- Concatenation `full_norm = " ".join(norm_lines)[:800]`. -/
def fullNormT (texts : List String) : List Char :=
  (List.intercalate [' '] (normLines texts)).take 800

/-- Flag `has_gamble`: `RE_MONEY_GAMBLE` matches `full_raw` or `full_norm`. -/
def hasGambleT (texts : List String) : Bool :=
  (moneyGambleFirst (fullRawT texts) <|> moneyGambleFirst (fullNormT texts)).isSome

/-- Flag `has_sex`: some `SEX_TERMS` entry occurs in `full_raw`. -/
def hasSexT (texts : List String) : Bool :=
  SEX_TERMS.any (fun t => containsSub t.data (fullRawT texts))

/-- Flag `has_phone`: `RE_PHONE_STRICT` matches `full_norm`. -/
def hasPhoneT (texts : List String) : Bool :=
  (phoneFirst (fullNormT texts)).isSome

/-- Flag `has_qq`: `RE_QQ` matches `full_raw` or `full_norm`. -/
def hasQQT (texts : List String) : Bool :=
  (qqFirst (fullRawT texts) <|> qqFirst (fullNormT texts)).isSome

/-- Flag `has_wechat`: `RE_WECHAT_HINT` matches `full_norm`. -/
def hasWechatT (texts : List String) : Bool :=
  (wechatFirst (fullNormT texts)).isSome

/-- Flag `has_long_digits`: `RE_LONG_DIGITS_LOOSE` matches `full_norm`. -/
def hasLongT (texts : List String) : Bool :=
  (longDigitsFirst (fullNormT texts)).isSome

/-- The sequential `if/elif` chain of `_extract_rule` assigning
(category, strength, score). -/
def ruleTriple (g s p q w d : Bool) : String × Int × Int :=
  if g then ("Gambling", 3, 90)
  else if s then ("Sex", 2, 80)
  else if p || q || (w && d) then ("Ad", 3, 92)
  else if w || d then ("Ad", 2, 70)
  else ("Normal", 0, 0)

/-- Evidence spans accumulated by `_extract_rule` before deduplication, in
append order (gambling, wechat hint, QQ, stripped phone, long digits, then the
literal term lists over the raw text). -/
def evidenceListT (texts : List String) : List (List Char) :=
  let fr := fullRawT texts
  let fn := fullNormT texts
  ((moneyGambleFirst fr <|> moneyGambleFirst fn).toList) ++
  ((wechatFirst fn).toList) ++
  ((qqFirst fr <|> qqFirst fn).toList) ++
  ((phoneFirst fn).map pyStrip).toList ++
  ((longDigitsFirst fn).toList) ++
  ((SEX_TERMS ++ AD_TERMS).filter
      (fun t => !t.data.isEmpty && containsSub t.data fr)).map String.data

/-- Strip entries, drop empties, deduplicate keeping first-seen order
(the `dedup`/`seen` loop of `_extract_rule`). -/
def dedupSpans (l : List (List Char)) : List (List Char) :=
  (l.map pyStrip).foldl
    (fun acc e => if e.isEmpty || acc.contains e then acc else acc ++ [e]) []

/-- Method `ContentReviewer._extract_rule`. -/
def extract_rule (texts : List String) : RuleOut :=
  let t := ruleTriple (hasGambleT texts) (hasSexT texts) (hasPhoneT texts)
      (hasQQT texts) (hasWechatT texts) (hasLongT texts)
  { category := t.1
    risk_score := t.2.2
    evidence_strength := t.2.1
    evidence_spans := ((dedupSpans (evidenceListT texts)).take 10).map String.mk
    full_text_raw := ⟨fullRawT texts⟩
    full_text_norm := ⟨fullNormT texts⟩ }

/-- Method `ContentReviewer._is_phrase_whitelist`. -/
def isPhraseWhitelist (full_text_raw : String) : Bool :=
  if full_text_raw = "" then false
  else SAFE_PHRASES.any (fun p => containsSub p.data full_text_raw.data)

/-! ## JSON values and defensive parsing in `_vl_cached_call` -/

/-- A JSON-decoded Python value (JSON integers only; the backend schema asks
for integer scores). -/
inductive JVal where
  | jnull : JVal
  | jbool : Bool → JVal
  | jnum : Int → JVal
  | jstr : String → JVal
  | jarr : List JVal → JVal
  | jobj : List (String × JVal) → JVal

/-- Python truthiness of a JSON-decoded value. -/
def pyTruthy : JVal → Bool
  | .jnull => false
  | .jbool b => b
  | .jnum n => n ≠ 0
  | .jstr s => s ≠ ""
  | .jarr l => !l.isEmpty
  | .jobj l => !l.isEmpty

/-- Python `x or d` on a JSON-decoded value with default `d`. -/
def orJ (v d : JVal) : JVal := if pyTruthy v then v else d

/-- Digit-string value. -/
def digitsVal (l : List Char) : Int :=
  l.foldl (fun a c => a * 10 + (Int.ofNat (c.toNat - 48))) 0

/-- Python `int(str)`: strip whitespace, optional sign, decimal digits;
raises `ValueError` otherwise. -/
def parseIntLit (s : List Char) : Except String Int :=
  let t := pyStrip s
  let sign : Int := match t with
    | '-' :: _ => -1
    | _ => 1
  let t2 := match t with
    | '-' :: r => r
    | '+' :: r => r
    | _ => t
  if !t2.isEmpty && t2.all Char.isDigit then .ok (sign * digitsVal t2)
  else .error "ValueError"

/-- Python `int()` applied to a JSON-decoded value. -/
def pyInt : JVal → Except String Int
  | .jnum n => .ok n
  | .jbool b => .ok (if b then 1 else 0)
  | .jstr s => parseIntLit s.data
  | _ => .error "TypeError"

/-- Python `str()` of a JSON-decoded value (container reprs abbreviated; they
feed only length-capped display fields). -/
def pyStrJ : JVal → String
  | .jnull => "None"
  | .jbool b => if b then "True" else "False"
  | .jnum n => toString n
  | .jstr s => s
  | .jarr _ => "<list>"
  | .jobj _ => "<dict>"

/-- The record-construction block of `_vl_cached_call` (lines building `out`
from the decoded response `res`): field accesses default defensively, but the
`int()` conversions can raise, and a non-dict decoded value makes `res.get`
raise.  `ms` is the measured remote-call latency used in the reason suffix. -/
def vlParseOut (res : JVal) (ms : Nat) : Except String L2Record :=
  match res with
  | .jobj fields =>
    let getF := fun (k : String) (d : JVal) => ((fields.lookup k).getD d)
    match pyInt (orJ (getF "risk_score" (.jnum 0)) (.jnum 0)),
          pyInt (orJ (getF "evidence_strength" (.jnum 0)) (.jnum 0)) with
    | .ok score, .ok strength =>
      .ok { category := pyStrJ (orJ (getF "category" (.jstr "Normal")) (.jstr "Normal"))
            risk_score := score
            evidence_strength := strength
            evidence_spans := []
            visual_evidence := takeS 220 (pyStrJ (orJ (getF "visual_evidence" (.jstr "")) (.jstr "")))
            is_whitelist := pyTruthy (getF "is_whitelist" (.jbool false))
            reason := takeS 180 (pyStrJ (orJ (getF "reason" (.jstr "")) (.jstr ""))) ++
                      " | vl_ms=" ++ toString ms }
    | .error e, _ => .error e
    | _, .error e => .error e
  | _ => .error "AttributeError"

/-! ## Caches -/

/-- Method `ContentReviewer._vl_cache_get`: `none` once past the TTL (entry evicted),
the entry while inside the cooldown window, `none` in between. -/
def vlCacheGet (ttl cooldown : ℚ) (cache : List (String × ℚ × L2Record))
    (key : String) (now : ℚ) : Option L2Record :=
  match cache.lookup key with
  | none => none
  | some (ts, res) =>
    if ttl < now - ts then none
    else if now - ts < cooldown then some res
    else none

/-- Method `RiskEngine._get_cached`: the entry while inside the cooldown window,
`none` otherwise (the engine cache has no separate TTL). -/
def engineGetCached (cooldown : ℚ) (cache : List (String × ℚ × L2Record))
    (key : String) (now : ℚ) : Option L2Record :=
  match cache.lookup key with
  | none => none
  | some (ts, res) => if now - ts < cooldown then some res else none

/-- The neutral fallback record returned by `_vl_cached_call` when VL is
disabled, the client is absent, or the rate limiter is saturated. -/
def vlFallbackRecord : L2Record :=
  { category := "Normal", risk_score := 0, evidence_strength := 0,
    evidence_spans := [], visual_evidence := "", is_whitelist := true,
    reason := "VL禁用或限频" }

/-- Method `ContentReviewer._vl_cached_call`.  `remote` is the backend call: `.error`
models an exception from the HTTP client (uncaught in the source), `.ok none`
a response whose content `json.loads` cannot parse (caught: `res = {}`), and
`.ok (some v)` a parsed response body.  The `Bool` reports whether the remote
backend was actually called. -/
def vlCachedCallE (ttl cooldown : ℚ) (cache : List (String × ℚ × L2Record))
    (key : String) (now : ℚ) (vl_enabled clientSome rateOk : Bool)
    (remote : Except String (Option JVal)) (ms : Nat) :
    Except String (L2Record × Bool) :=
  match vlCacheGet ttl cooldown cache key now with
  | some cached => .ok (cached, false)
  | none =>
    if !vl_enabled || !clientSome || !rateOk then .ok (vlFallbackRecord, false)
    else
      match remote with
      | .error e => .error e
      | .ok content =>
        match vlParseOut (content.getD (.jobj [])) ms with
        | .error e => .error e
        | .ok out => .ok (out, true)

/-- Fallback of `review_visual_sexual` when the image has no md5. -/
def noMd5Record : L2Record :=
  { category := "Normal", risk_score := 0, evidence_strength := 0,
    evidence_spans := [], visual_evidence := "", is_whitelist := true,
    reason := "no_image_md5" }

/-- Fallback of `review_visual_sexual` when the image cannot be read/encoded. -/
def readFailRecord : L2Record :=
  { category := "Normal", risk_score := 0, evidence_strength := 0,
    evidence_spans := [], visual_evidence := "", is_whitelist := true,
    reason := "image_read_fail" }

/-- Method `ContentReviewer.review_visual_sexual` (the visual escalation path): this
method has no exception handler, so any error from `_vl_cached_call`
propagates. -/
def reviewVisualSexualE (fileMd5 : Option String) (encodeOk : Bool)
    (ttl cooldown : ℚ) (cache : List (String × ℚ × L2Record)) (now : ℚ)
    (vl_enabled clientSome rateOk : Bool)
    (remote : Except String (Option JVal)) (ms : Nat) :
    Except String (L2Record × Bool) :=
  match fileMd5 with
  | none => .ok (noMd5Record, false)
  | some m =>
    if !encodeOk then .ok (readFailRecord, false)
    else vlCachedCallE ttl cooldown cache (m ++ ":vl_sex") now
      vl_enabled clientSome rateOk remote ms

/-! ## `ContentReviewer.review_from_l1` -/

/-- Truthiness of the optional `frame_path` string. -/
def truthyPath : Option String → Bool
  | none => false
  | some s => s ≠ ""

/-- Method `ContentReviewer.review_from_l1`, with the VL gateway abstracted as
`vlOracle` (the record `_vl_cached_call` would produce).  Returns the record
and whether the VL gateway was invoked.  The blanket body-level
`try/except` never fires in this typed model (all operations are total), so it
is not represented. -/
def review_from_l1 (vl_enabled : Bool) (texts : List String)
    (frame_path : Option String) (fileMd5 : Option String) (encodeOk : Bool)
    (vlOracle : L2Record) : L2Record × Bool :=
  let rule := extract_rule texts
  let phrase_wl := isPhraseWhitelist rule.full_text_raw
  if 90 ≤ rule.risk_score then
    ({ category := rule.category
       risk_score := rule.risk_score
       evidence_strength := rule.evidence_strength
       evidence_spans := rule.evidence_spans
       visual_evidence := ""
       is_whitelist := phrase_wl
       reason := if !rule.evidence_spans.isEmpty then
           "结构化强证据：" ++ String.intercalate ", " (rule.evidence_spans.take 3)
         else "结构化强证据" }, false)
  else
    let enable_vl := vl_enabled && decide (60 ≤ rule.risk_score)
    let ocr_too_weak := rule.evidence_spans.isEmpty && decide (rule.evidence_strength = 0)
    let md5 := if truthyPath frame_path then fileMd5 else none
    let cache_key := md5.map (fun m => m ++ ":vl_text:" ++ rule.category)
    if enable_vl && ocr_too_weak && truthyPath frame_path && cache_key.isSome then
      if !encodeOk then
        ({ category := rule.category
           risk_score := rule.risk_score
           evidence_strength := rule.evidence_strength
           evidence_spans := rule.evidence_spans
           visual_evidence := ""
           is_whitelist := phrase_wl
           reason := "图片读取失败（未触发VL）" }, false)
      else
        ({ vlOracle with is_whitelist := vlOracle.is_whitelist || phrase_wl }, true)
    else
      ({ category := rule.category
         risk_score := rule.risk_score
         evidence_strength := rule.evidence_strength
         evidence_spans := rule.evidence_spans
         visual_evidence := ""
         is_whitelist := phrase_wl
         reason := if 0 < rule.risk_score then "规则审计（未触发VL）"
           else "证据不足/常规话术" }, false)

/-- The pure, I/O-free function of the text spans that `review_from_l1`
implements: the rule-extractor record with the phrase-whitelist flag
attached. -/
def pureReview (texts : List String) : L2Record :=
  let rule := extract_rule texts
  let phrase_wl := isPhraseWhitelist rule.full_text_raw
  { category := rule.category
    risk_score := rule.risk_score
    evidence_strength := rule.evidence_strength
    evidence_spans := rule.evidence_spans
    visual_evidence := ""
    is_whitelist := phrase_wl
    reason := if 90 ≤ rule.risk_score then
        (if !rule.evidence_spans.isEmpty then
          "结构化强证据：" ++ String.intercalate ", " (rule.evidence_spans.take 3)
        else "结构化强证据")
      else if 0 < rule.risk_score then "规则审计（未触发VL）"
      else "证据不足/常规话术" }

/-! ## `RiskEngine` (`risk_engine.py`) -/

/-- One structured detection, as consumed by `_extract_objects_labels`. -/
structure DetectedObj where
  label : String
  conf : Option ℚ
  bbox : Option (List ℚ)
deriving DecidableEq, Repr

/-- The secondary-signal summary fields read by `detect_and_judge`. -/
structure HitSummary where
  skinRatio : ℚ
  skinTrigger : Bool
  qrFound : Bool
deriving DecidableEq, Repr

/-- The L1 payload consumed by `detect_and_judge` / `review_from_l1`. -/
structure L1Result where
  framePath : String
  objects : List DetectedObj
  texts : List String
  hs : HitSummary
deriving DecidableEq, Repr

/-- One policy rule as loaded from `configs/rules.yaml` (`risk_threshold` may
be absent from a YAML record). -/
structure PolicyRule where
  risk_threshold : Option Int
  action : String
  label_cn : String
deriving DecidableEq, Repr

/-- The permissive single-rule policy installed by `_load_policy` when the
config file is missing or malformed. -/
def defaultPolicyOnLoadFailure : List (String × PolicyRule) :=
  [("Normal", { risk_threshold := some 999, action := "pass", label_cn := "合规" })]

/-- Table `LABEL_MAP` of `risk_engine.py`. -/
def LABEL_MAP : List (String × String) :=
  [("risky_content", "违规引流/手写内容"), ("qr_code", "二维码"),
   ("wechat_id", "微信号"), ("wechat_qr", "微信二维码"), ("knife", "刀具"),
   ("scissors", "剪刀"), ("gun", "枪支"), ("fire", "火焰/火")]

/-- Lookup `LABEL_MAP.get(label, label)`. -/
def labelCn (l : String) : String := (LABEL_MAP.lookup l).getD l

/-- Set `HARD_BLOCK_LABELS` of `risk_engine.py`. -/
def HARD_BLOCK_LABELS : List String :=
  ["risky_content", "qr_code", "wechat_id", "wechat_qr", "knife", "scissors",
   "gun", "fire"]

/-- Method `RiskEngine._normalize_label`: strip and lowercase. -/
def normalizeLabel (s : String) : String := lowerS (stripS s)

/-- Method `RiskEngine._extract_objects_labels` on structured detections: normalize
each label, drop empties, return (labels, objects). -/
def extractObjectsLabels (objs : List DetectedObj) : List String × List DetectedObj :=
  let cleaned := (objs.map (fun o => { o with label := normalizeLabel o.label })).filter
    (fun o => decide (o.label ≠ ""))
  (cleaned.map (fun o => o.label), cleaned)

/-- Filter `hard_hits`: extracted objects whose (re-)normalized label is in
`HARD_BLOCK_LABELS`. -/
def hardHitsOf (objs : List DetectedObj) : List DetectedObj :=
  ((extractObjectsLabels objs).2).filter
    (fun o => decide (normalizeLabel o.label ∈ HARD_BLOCK_LABELS))

/-- The reason string of the hard-block decision, naming (the display labels
of) up to four matched hits. -/
def hardReason (hardHits : List DetectedObj) : String :=
  "L1 强证据命中：" ++
    String.intercalate ", " ((hardHits.take 4).map (fun h => labelCn h.label))

/-- The final decision triple of `detect_and_judge`. -/
structure FinalDecision where
  risk_score : Int
  action : String
  reason : String
deriving DecidableEq, Repr

/-- The observable outcome of one `detect_and_judge` call: the final decision
plus the parts of the evidence trace and call behavior the claims are about. -/
structure JudgeOut where
  final : FinalDecision
  l2Text : Option L2Record
  l2Sex : Option L2Record
  calledTextReview : Bool
  calledSexReview : Bool
  chosenCategory : Option String
deriving DecidableEq, Repr

/-- The hard-block outcome (step 2 of `detect_and_judge`): score 95, block,
reason naming the hits; no L2 stage runs. -/
def hardOut (l1 : L1Result) : JudgeOut :=
  { final := { risk_score := 95, action := "拦截",
               reason := hardReason (hardHitsOf l1.objects) }
    l2Text := none
    l2Sex := none
    calledTextReview := false
    calledSexReview := false
    chosenCategory := none }

/-- Step 3 of `detect_and_judge` (L2 text path): run if there is any text or
any label; consult the engine cache when an md5 key exists; `textOracle` is
what `l2.review_from_l1` would return.  Returns the record used (if any) and
whether `review_from_l1` was invoked. -/
def l2TextStep (texts : List String) (labels : List String) (md5 : Option String)
    (cacheText : Option L2Record) (textOracle : L2Record) : Option L2Record × Bool :=
  if !texts.isEmpty || !labels.isEmpty then
    match md5 with
    | some _ =>
      match cacheText with
      | some c => (some c, false)
      | none => (some textOracle, true)
    | none => (some textOracle, true)
  else (none, false)

/-- Step 4 of `detect_and_judge` (L2 visual path), gated by `skin_trigger`;
the sex-review call may raise (`review_visual_sexual` has no handler), so the
call is an `Except`. -/
def l2SexStepE (skinTrigger : Bool) (md5 : Option String)
    (cacheSex : Option L2Record) (sexCall : Except String L2Record) :
    Except String (Option L2Record × Bool) :=
  if !skinTrigger then .ok (none, false)
  else
    match md5 with
    | some _ =>
      match cacheSex with
      | some c => .ok (some c, false)
      | none => sexCall.map (fun r => (some r, true))
    | none => sexCall.map (fun r => (some r, true))

/-- The non-raising instance of the visual step, used by the pure model. -/
def l2SexStep (skinTrigger : Bool) (md5 : Option String)
    (cacheSex : Option L2Record) (sexOracle : L2Record) : Option L2Record × Bool :=
  if !skinTrigger then (none, false)
  else
    match md5 with
    | some _ =>
      match cacheSex with
      | some c => (some c, false)
      | none => (some sexOracle, true)
    | none => (some sexOracle, true)

/-- The candidate list of step 5 (`("text", …)` before `("sex", …)`). -/
def toCandidates (l2t l2s : Option L2Record) : List (String × L2Record) :=
  (match l2t with
   | some r => [("text", r)]
   | none => []) ++
  (match l2s with
   | some r => [("sex", r)]
   | none => [])

/-- Head of the stable descending sort by `risk_score` (Python `list.sort`
with `reverse=True` is stable, so the first-seen candidate wins ties). -/
def pickTop : List (String × L2Record) → Option (String × L2Record)
  | [] => none
  | c :: rest =>
    some (rest.foldl (fun best x => if best.2.risk_score < x.2.risk_score then x else best) c)

/-- Constant `MAX_SCORE_WITHOUT_EVIDENCE` of `risk_engine.py`. -/
def MAX_SCORE_WITHOUT_EVIDENCE : Int := 30

/-- The effective threshold of step 6: the override if supplied, else the
`risk_threshold` of the policy rule for the chosen category, else 80. -/
def effectiveThreshold (policy : List (String × PolicyRule)) (override : Option Int)
    (category : String) : Int :=
  match override with
  | some t => t
  | none =>
    match policy.lookup category with
    | some r => r.risk_threshold.getD 80
    | none => 80

/-- The candidate list `detect_and_judge` fuses, as a function of its inputs
(steps 3–5 before selection). -/
def djCandidates (l1 : L1Result) (md5 : Option String)
    (cacheText cacheSex : Option L2Record) (textOracle sexOracle : L2Record) :
    List (String × L2Record) :=
  toCandidates
    (l2TextStep l1.texts (extractObjectsLabels l1.objects).1 md5 cacheText textOracle).1
    (l2SexStep l1.hs.skinTrigger md5 cacheSex sexOracle).1

/-- Steps 5–7 of `detect_and_judge`: fusion, suppression, threshold/whitelist,
final assembly (with the reason truncated to 220 characters). -/
def djSoft (policy : List (String × PolicyRule)) (override : Option Int)
    (l2t l2s : Option L2Record) (ct cs : Bool) : JudgeOut :=
  match pickTop (toCandidates l2t l2s) with
  | none =>
    { final := { risk_score := 0, action := "通过", reason := takeS 220 "画面极其纯净" }
      l2Text := l2t, l2Sex := l2s, calledTextReview := ct, calledSexReview := cs
      chosenCategory := some "Normal" }
  | some (src, chosen) =>
    let score := chosen.risk_score
    let category := if chosen.category = "" then "Normal" else chosen.category
    let strength := chosen.evidence_strength
    let spans := chosen.evidence_spans
    let visual := stripS chosen.visual_evidence
    let hasAnyEvidence := !spans.isEmpty || visual ≠ ""
    let fin : FinalDecision :=
      if strength < 2 || !hasAnyEvidence then
        { risk_score := min score MAX_SCORE_WITHOUT_EVIDENCE, action := "通过",
          reason := takeS 220 "证据不足（已抑制误报）" }
      else
        let threshold := effectiveThreshold policy override category
        let wl := if chosen.is_whitelist && 2 ≤ strength then false
          else chosen.is_whitelist
        if threshold ≤ score && !wl then
          let ev0 := if !spans.isEmpty then String.intercalate ", " (spans.take 3) else ""
          let ev := if ev0 = "" && visual ≠ "" then takeS 80 visual else ev0
          { risk_score := score, action := "拦截",
            reason := takeS 220 (if ev ≠ "" then
                "L2(" ++ src ++ ") 证据命中拦截（" ++ category ++ "）：" ++ ev
              else "L2(" ++ src ++ ") 证据命中拦截（" ++ category ++ "）") }
        else
          { risk_score := score, action := "通过",
            reason := takeS 220 "有风险证据，但未达拦截阈值" }
    { final := fin
      l2Text := l2t, l2Sex := l2s, calledTextReview := ct, calledSexReview := cs
      chosenCategory := some category }

/-- Method `RiskEngine.detect_and_judge`, pure model.  Collaborators are explicit:
`md5` is the md5 of the frame (if computable), `cacheText`/`cacheSex` the engine
cache lookups for the two keys, `textOracle`/`sexOracle` the records the two
L2 reviews would produce. -/
def detect_and_judge (policy : List (String × PolicyRule)) (l1 : L1Result)
    (md5 : Option String) (cacheText cacheSex : Option L2Record)
    (textOracle sexOracle : L2Record) (override : Option Int)
    (l1HardBlock : Bool) : JudgeOut :=
  if l1HardBlock && !(hardHitsOf l1.objects).isEmpty then hardOut l1
  else
    let labels := (extractObjectsLabels l1.objects).1
    let (l2t, ct) := l2TextStep l1.texts labels md5 cacheText textOracle
    let (l2s, cs) := l2SexStep l1.hs.skinTrigger md5 cacheSex sexOracle
    djSoft policy override l2t l2s ct cs

/-- Method `RiskEngine.detect_and_judge` with the possible exception of the visual review:
`detect_and_judge` wraps no handler around `review_visual_sexual`, so its
error propagates to the caller. -/
def detect_and_judgeE (policy : List (String × PolicyRule)) (l1 : L1Result)
    (md5 : Option String) (cacheText cacheSex : Option L2Record)
    (textOracle : L2Record) (sexCall : Except String L2Record)
    (override : Option Int) (l1HardBlock : Bool) : Except String JudgeOut :=
  if l1HardBlock && !(hardHitsOf l1.objects).isEmpty then .ok (hardOut l1)
  else
    let labels := (extractObjectsLabels l1.objects).1
    let (l2t, ct) := l2TextStep l1.texts labels md5 cacheText textOracle
    match l2SexStepE l1.hs.skinTrigger md5 cacheSex sexCall with
    | .error e => .error e
    | .ok (l2s, cs) => .ok (djSoft policy override l2t l2s ct cs)

/-! ## `FrameProcessor` (`frame_processor.py`) -/

/-- Result of `_qr_fast_detect`. -/
structure QRRes where
  found : Bool
  data : List String
deriving DecidableEq, Repr

/-- Method `FrameProcessor._qr_fast_detect` after the OpenCV decode: `ok` and
`decodedInfo` are the raw outputs of the detector; empty decodes are dropped. -/
def qrFastDetect (ok : Bool) (decodedInfo : List String) : QRRes :=
  if !ok || decodedInfo.isEmpty then { found := false, data := [] }
  else
    let data := decodedInfo.filter (fun d => decide (d ≠ ""))
    { found := !data.isEmpty, data := data.take 3 }

/-- The object-list assembly of `process_frame`: YOLO detections, then a
synthetic `qr_code` detection with confidence 0.99 when the QR fast check
fired. -/
def processObjects (yoloObjs : List DetectedObj) (qrFound : Bool) : List DetectedObj :=
  yoloObjs ++ (if qrFound then [{ label := "qr_code", conf := some (99 / 100), bbox := none }] else [])

/-- Method `FrameProcessor.process_frame` on a readable frame, with the YOLO model,
OCR and skin heuristic abstracted as inputs (`skinTrigger` is
`skin_ratio >= skin_ratio_trigger`). -/
def processFrame (framePath : String) (yoloObjs : List DetectedObj) (qr : QRRes)
    (skinRatio trigger : ℚ) (texts : List String) : L1Result :=
  { framePath := framePath
    objects := processObjects yoloObjs qr.found
    texts := texts
    hs := { skinRatio := skinRatio, skinTrigger := decide (trigger ≤ skinRatio),
            qrFound := qr.found } }

/-! ## Spec-side definitions -/

/-- Stated from the words of the specification (§4.1 step 3 and claim C4):
category/score assignment uses first-match priority — gambling, else sexual
term, else (strict phone OR numeric ID OR (contact hint AND long digit run)),
else (contact hint OR long digit run), else Normal; each row giving the
claimed (category, evidence_strength, risk_score). -/
def ruleAssignSpec (gamble sexTerm phone qqId hint longRun : Bool) :
    String × Int × Int :=
  if gamble then ("Gambling", 3, 90)
  else if sexTerm then ("Sex", 2, 80)
  else if phone || qqId || (hint && longRun) then ("Ad", 3, 92)
  else if hint || longRun then ("Ad", 2, 70)
  else ("Normal", 0, 0)

/-! ## Helper lemmas -/

/-- In the `_extract_rule` chain, every branch with score ≥ 60 assigns a
non-zero strength. -/
theorem ruleTriple_strength_ne_zero : ∀ g s p q w d : Bool,
    60 ≤ (ruleTriple g s p q w d).2.2 → (ruleTriple g s p q w d).2.1 ≠ 0 := by
  decide

/-- Function `extract_rule` only assigns strength 0 together with score 0 (seen through
score ≥ 60). -/
theorem extract_rule_strength_ne_zero (texts : List String)
    (h : 60 ≤ (extract_rule texts).risk_score) :
    (extract_rule texts).evidence_strength ≠ 0 :=
  ruleTriple_strength_ne_zero _ _ _ _ _ _ h

/-- Every label of `HARD_BLOCK_LABELS` is non-empty and fixed by
normalization. -/
theorem hard_block_labels_normalized :
    ∀ s ∈ HARD_BLOCK_LABELS, s ≠ "" ∧ normalizeLabel s = s := by
  decide

/-- A detection whose normalized label is hard-blocked survives label
extraction and lands in `hard_hits`. -/
theorem hard_hits_ne_nil_of_mem (objs : List DetectedObj)
    (h : ∃ o ∈ objs, normalizeLabel o.label ∈ HARD_BLOCK_LABELS) :
    hardHitsOf objs ≠ [] := by
  obtain ⟨o, ho, hm⟩ := h
  obtain ⟨hne, hfix⟩ := hard_block_labels_normalized _ hm
  have h1 : ({ o with label := normalizeLabel o.label } : DetectedObj) ∈
      (extractObjectsLabels objs).2 := by
    unfold extractObjectsLabels
    rw [List.mem_filter]
    exact ⟨List.mem_map_of_mem _ ho, by simpa using hne⟩
  have h2 : ({ o with label := normalizeLabel o.label } : DetectedObj) ∈
      hardHitsOf objs := by
    unfold hardHitsOf
    rw [List.mem_filter]
    refine ⟨h1, by simpa [hfix] using hm⟩
  exact List.ne_nil_of_mem h2

/-- With hard blocking on and a non-empty hard-hit list, `detect_and_judge`
takes the hard-block early return. -/
theorem detect_and_judge_hard (policy : List (String × PolicyRule)) (l1 : L1Result)
    (md5 : Option String) (cT cS : Option L2Record) (tO sO : L2Record)
    (ov : Option Int) (h : hardHitsOf l1.objects ≠ []) :
    detect_and_judge policy l1 md5 cT cS tO sO ov true = hardOut l1 := by
  unfold detect_and_judge
  simp [h]

/-- When the visual review returns normally, the exception-aware model agrees
with the pure model. -/
theorem detect_and_judgeE_ok (policy : List (String × PolicyRule)) (l1 : L1Result)
    (md5 : Option String) (cT cS : Option L2Record) (tO sO : L2Record)
    (ov : Option Int) (hb : Bool) :
    detect_and_judgeE policy l1 md5 cT cS tO (.ok sO) ov hb =
      .ok (detect_and_judge policy l1 md5 cT cS tO sO ov hb) := by
  unfold detect_and_judgeE detect_and_judge
  split
  · rfl
  · unfold l2SexStepE l2SexStep
    by_cases htr : l1.hs.skinTrigger <;>
      cases md5 <;> cases cS <;> simp [htr, Except.map]

/-! ## C4: first-match priority of the rule extractor -/

/-- C4 — confirmed.  For every list of text spans, `_extract_rule` assigns
(category, evidence_strength, risk_score) exactly by the claimed first-match
priority chain over the matchers evaluated on the concatenated raw/normalized
text: gambling → (Gambling,3,90); else sexual term → (Sex,2,80); else strict
phone OR QQ id OR (contact hint AND long digit run) → (Ad,3,92); else contact
hint OR long digit run → (Ad,2,70); else (Normal,0,0). -/
theorem c4_rule_extractor_first_match (texts : List String) :
    ((extract_rule texts).category, (extract_rule texts).evidence_strength,
      (extract_rule texts).risk_score) =
    ruleAssignSpec (hasGambleT texts) (hasSexT texts) (hasPhoneT texts)
      (hasQQT texts) (hasWechatT texts) (hasLongT texts) := rfl

/-! ## C8: `review_from_l1` is pure and VL-free -/

/-- C8 — confirmed.  For every payload, md5/encode outcome and VL behavior,
`review_from_l1` never invokes the VL gateway (second component `false`) and
returns exactly the pure rule-extractor record with the phrase-whitelist flag
attached — a pure, I/O-free function of the text spans alone: its escalation
guard needs strength 0 with score ≥ 60, which `_extract_rule` never
produces. -/
theorem c8_review_from_l1_pure (vl_enabled : Bool) (texts : List String)
    (frame_path fileMd5 : Option String) (encodeOk : Bool) (vlOracle : L2Record) :
    review_from_l1 vl_enabled texts frame_path fileMd5 encodeOk vlOracle =
      (pureReview texts, false) := by
  unfold review_from_l1 pureReview
  by_cases h90 : 90 ≤ (extract_rule texts).risk_score
  · simp [h90]
  · by_cases h60 : 60 ≤ (extract_rule texts).risk_score
    · have hs0 := extract_rule_strength_ne_zero texts h60
      simp [h90, hs0]
    · simp [h90, h60]

/-! ## C9: the engine only ever emits block or pass -/

/-- Both actions of the fused decision are block or pass. -/
theorem djSoft_action (policy : List (String × PolicyRule)) (ov : Option Int)
    (l2t l2s : Option L2Record) (ct cs : Bool) :
    (djSoft policy ov l2t l2s ct cs).final.action = "拦截" ∨
    (djSoft policy ov l2t l2s ct cs).final.action = "通过" := by
  unfold djSoft
  rcases hp : pickTop (toCandidates l2t l2s) with _ | ⟨src, chosen⟩
  · exact Or.inr rfl
  · simp only []
    split_ifs <;> first | exact Or.inl rfl | exact Or.inr rfl

/-- C9 — confirmed.  For every input and collaborator behavior, the action of
the decision produced by `detect_and_judge` is block (`"拦截"`) or pass
(`"通过"`); the `warn` action of the policy enum is never emitted. -/
theorem c9_action_is_block_or_pass (policy : List (String × PolicyRule))
    (l1 : L1Result) (md5 : Option String) (cT cS : Option L2Record)
    (tO sO : L2Record) (ov : Option Int) (hb : Bool) :
    (detect_and_judge policy l1 md5 cT cS tO sO ov hb).final.action = "拦截" ∨
    (detect_and_judge policy l1 md5 cT cS tO sO ov hb).final.action = "通过" := by
  unfold detect_and_judge
  split
  · exact Or.inl rfl
  · exact djSoft_action _ _ _ _ _ _

/-! ## C2: hard-block precedence -/

/-- C2 — confirmed.  Whenever hard blocking is on and some detection label is
(after normalization) in the hard-block set, `detect_and_judge` emits block
with score 95 and a reason naming the matched labels, records no L2 evidence,
and invokes neither reviewer — regardless of text content, caches, oracle
records, or override. -/
theorem c2_hard_block_precedence (policy : List (String × PolicyRule))
    (l1 : L1Result) (md5 : Option String) (cT cS : Option L2Record)
    (tO sO : L2Record) (ov : Option Int)
    (h : ∃ o ∈ l1.objects, normalizeLabel o.label ∈ HARD_BLOCK_LABELS) :
    detect_and_judge policy l1 md5 cT cS tO sO ov true =
      { final := { risk_score := 95, action := "拦截",
                   reason := hardReason (hardHitsOf l1.objects) }
        l2Text := none, l2Sex := none, calledTextReview := false,
        calledSexReview := false, chosenCategory := none } :=
  detect_and_judge_hard policy l1 md5 cT cS tO sO ov
    (hard_hits_ne_nil_of_mem l1.objects h)

/-- A neutral collaborator record for concrete scenarios. -/
def neutralOracle : L2Record :=
  { category := "Normal", risk_score := 0, evidence_strength := 0,
    evidence_spans := [], visual_evidence := "", is_whitelist := false,
    reason := "" }

/-- Frame with a (noisily labelled) knife detection and solicitation text. -/
def knifeL1 : L1Result :=
  { framePath := "f.jpg"
    objects := [{ label := " Knife ", conf := some (9 / 10), bbox := none }]
    texts := ["加v 13812345678"]
    hs := { skinRatio := 0, skinTrigger := false, qrFound := false } }

/-- Witness for C2 at a concrete frame: the knife detection hard-blocks with
score 95 and a reason naming the knife, with no reviewer call. -/
theorem c2_hard_block_precedence_witness :
    (∃ o ∈ knifeL1.objects, normalizeLabel o.label ∈ HARD_BLOCK_LABELS) ∧
    detect_and_judge defaultPolicyOnLoadFailure knifeL1 (some "m") none none
        neutralOracle neutralOracle none true =
      { final := { risk_score := 95, action := "拦截",
                   reason := hardReason (hardHitsOf knifeL1.objects) }
        l2Text := none, l2Sex := none, calledTextReview := false,
        calledSexReview := false, chosenCategory := none } := by
  have hex : ∃ o ∈ knifeL1.objects, normalizeLabel o.label ∈ HARD_BLOCK_LABELS := by
    refine ⟨{ label := " Knife ", conf := some (9 / 10), bbox := none }, ?_, ?_⟩
    · simp [knifeL1]
    · decide
  exact ⟨hex, c2_hard_block_precedence defaultPolicyOnLoadFailure knifeL1
    (some "m") none none neutralOracle neutralOracle none hex⟩

/-! ## C3: evidence suppression -/

/-- C3 — confirmed.  Whenever the hard-block bypass does not fire and the
chosen (maximum-score, first-seen-on-ties) candidate has evidence strength
below 2, or has neither evidence spans nor (stripped) visual evidence text,
the final score is capped at 30 and the action forced to pass with the
insufficient-evidence reason. -/
theorem c3_suppression (policy : List (String × PolicyRule)) (l1 : L1Result)
    (md5 : Option String) (cT cS : Option L2Record) (tO sO : L2Record)
    (ov : Option Int) (hb : Bool)
    (hhard : ¬(hb = true ∧ hardHitsOf l1.objects ≠ []))
    (src : String) (c : L2Record)
    (hch : pickTop (djCandidates l1 md5 cT cS tO sO) = some (src, c))
    (hweak : c.evidence_strength < 2 ∨
      (c.evidence_spans = [] ∧ stripS c.visual_evidence = "")) :
    (detect_and_judge policy l1 md5 cT cS tO sO ov hb).final.risk_score ≤ 30 ∧
    (detect_and_judge policy l1 md5 cT cS tO sO ov hb).final.action = "通过" ∧
    (detect_and_judge policy l1 md5 cT cS tO sO ov hb).final.reason =
      "证据不足（已抑制误报）" := by
  have hcond : (hb && !(hardHitsOf l1.objects).isEmpty) = false := by
    cases hb with
    | false => rfl
    | true =>
      push_neg at hhard
      simp [hhard rfl]
  have hch2 : pickTop (toCandidates
      (l2TextStep l1.texts (extractObjectsLabels l1.objects).1 md5 cT tO).1
      (l2SexStep l1.hs.skinTrigger md5 cS sO).1) = some (src, c) := hch
  have hsup : (decide (c.evidence_strength < 2) ||
      !(!c.evidence_spans.isEmpty || decide (stripS c.visual_evidence ≠ ""))) = true := by
    rcases hweak with h | ⟨h1, h2⟩
    · simp [h]
    · simp [h1, h2]
  unfold detect_and_judge
  rw [hcond]
  simp only [Bool.false_eq_true, if_false]
  unfold djSoft
  rw [hch2]
  simp only [hsup, MAX_SCORE_WITHOUT_EVIDENCE]
  refine ⟨?_, ?_, ?_⟩
  · simp
  · simp
  · simp only [if_true]
    decide

/-- Weakly-grounded visual candidate: high score, strength 1. -/
def weakSexRecord : L2Record :=
  { category := "Sex", risk_score := 88, evidence_strength := 1,
    evidence_spans := [], visual_evidence := "pose", is_whitelist := false,
    reason := "r" }

/-- Skin-triggered frame with no detections and no text. -/
def skinL1 : L1Result :=
  { framePath := "f.jpg", objects := [], texts := []
    hs := { skinRatio := 1 / 2, skinTrigger := true, qrFound := false } }

/-- Witness for C3 at a concrete frame: a score-88, strength-1 visual
candidate is suppressed to ≤ 30 / pass / insufficient-evidence. -/
theorem c3_suppression_witness :
    pickTop (djCandidates skinL1 (some "m") none none neutralOracle weakSexRecord) =
      some ("sex", weakSexRecord) ∧
    weakSexRecord.evidence_strength < 2 ∧
    (detect_and_judge defaultPolicyOnLoadFailure skinL1 (some "m") none none
        neutralOracle weakSexRecord none true).final.risk_score ≤ 30 ∧
    (detect_and_judge defaultPolicyOnLoadFailure skinL1 (some "m") none none
        neutralOracle weakSexRecord none true).final.action = "通过" := by
  have h := c3_suppression defaultPolicyOnLoadFailure skinL1 (some "m") none none
    neutralOracle weakSexRecord none true (by decide) "sex" weakSexRecord rfl
    (Or.inl (by decide))
  exact ⟨rfl, by decide, h.1, h.2.1⟩

/-! ## C5: clamping/capping of the stored remote record -/

/-- Length bound `(takeS n s).length ≤ n`. -/
theorem takeS_length_le (n : Nat) (s : String) : (takeS n s).length ≤ n := by
  show (s.data.take n).length ≤ n
  rw [List.length_take]
  exact min_le_left _ _

/-- C5 — corrected: the range clamping of the claim does not exist.  The record
built from a backend response on an actual remote call has `risk_score = 500`
stored as-is when the response carries `risk_score = 500`: no clamping to
[0,100] (nor of `evidence_strength` to {0,1,2,3}) happens before storage. -/
theorem c5_no_clamping_counterexample :
    vlParseOut (.jobj [("risk_score", .jnum 500), ("evidence_strength", .jnum 9)]) 7 =
      .ok { category := "Normal", risk_score := 500, evidence_strength := 9,
            evidence_spans := [], visual_evidence := "", is_whitelist := false,
            reason := " | vl_ms=7" } ∧
    ¬((500 : Int) ≤ 100) ∧ ¬((9 : Int) ≤ 3) := by
  refine ⟨rfl, by decide, by decide⟩

/-- C5 — amended.  On an actual remote call, whenever the record-building
block returns a record, its textual fields are length-capped
(`visual_evidence` to 220 characters, the reason body to 180 plus the
latency suffix) and its span list is empty; `risk_score` and
`evidence_strength` are int-converted (falsy values defaulting to 0) but not
range-clamped. -/
theorem c5_amended_textual_caps (res : JVal) (ms : Nat) (r : L2Record)
    (h : vlParseOut res ms = .ok r) :
    r.visual_evidence.length ≤ 220 ∧
    r.reason.length ≤ 189 + (toString ms).length ∧
    r.evidence_spans = [] := by
  unfold vlParseOut at h
  cases res with
  | jobj fields =>
    simp only [] at h
    cases h1 : pyInt (orJ (((fields.lookup "risk_score").getD (.jnum 0))) (.jnum 0)) with
    | error e =>
      cases h2 : pyInt (orJ (((fields.lookup "evidence_strength").getD (.jnum 0))) (.jnum 0)) with
      | error e2 => rw [h1, h2] at h; cases h
      | ok s2 => rw [h1, h2] at h; cases h
    | ok score =>
      cases h2 : pyInt (orJ (((fields.lookup "evidence_strength").getD (.jnum 0))) (.jnum 0)) with
      | error e2 => rw [h1, h2] at h; cases h
      | ok strength =>
        rw [h1, h2] at h
        cases h
        refine ⟨takeS_length_le _ _, ?_, rfl⟩
        show (takeS 180 _ ++ " | vl_ms=" ++ toString ms).length ≤ 189 + (toString ms).length
        rw [String.length_append, String.length_append]
        have h3 := takeS_length_le 180
          (pyStrJ (orJ (((fields.lookup "reason").getD (.jstr ""))) (.jstr "")))
        have h4 : (" | vl_ms=" : String).length = 9 := rfl
        omega
  | jnull => cases h
  | jbool b => cases h
  | jnum n => cases h
  | jstr s => cases h
  | jarr l => cases h

/-- Witness for the amended C5 at a concrete response. -/
theorem c5_amended_textual_caps_witness :
    vlParseOut (.jobj [("visual_evidence", .jstr "abc")]) 7 =
      .ok { category := "Normal", risk_score := 0, evidence_strength := 0,
            evidence_spans := [], visual_evidence := "abc", is_whitelist := false,
            reason := " | vl_ms=7" } ∧
    ({ category := "Normal", risk_score := 0, evidence_strength := 0,
       evidence_spans := [], visual_evidence := "abc", is_whitelist := false,
       reason := " | vl_ms=7" } : L2Record).visual_evidence.length ≤ 220 := by
  have hok : vlParseOut (.jobj [("visual_evidence", .jstr "abc")]) 7 =
      .ok { category := "Normal", risk_score := 0, evidence_strength := 0,
            evidence_spans := [], visual_evidence := "abc", is_whitelist := false,
            reason := " | vl_ms=7" } := rfl
  exact ⟨hok, (c5_amended_textual_caps _ 7 _ hok).1⟩

/-! ## C6: cache TTL and cooldown discipline -/

/-- C6 — confirmed.  In the VL cache of the gateway a lookup never returns an entry
aged past the TTL, and (with the configured cooldown ≤ TTL) a lookup hitting
an entry inside the cooldown window returns exactly that entry and
`_vl_cached_call` then performs no remote call; the L2 cache of the engine keeps an
entry retrievable exactly while younger than its cooldown (which is its only
expiry), so the same two properties hold there with TTL = cooldown. -/
theorem c6_cache_ttl_cooldown (ttl cd ecd : ℚ)
    (cache ecache : List (String × ℚ × L2Record)) (key : String)
    (now ts : ℚ) (r : L2Record) (hcd : cd ≤ ttl) :
    (∀ r2, vlCacheGet ttl cd cache key now = some r2 →
      ∃ ts2, cache.lookup key = some (ts2, r2) ∧ now - ts2 ≤ ttl) ∧
    (cache.lookup key = some (ts, r) → now - ts < cd →
      ∀ enabled client rateOk remote ms,
        vlCachedCallE ttl cd cache key now enabled client rateOk remote ms =
          .ok (r, false)) ∧
    (∀ r2, engineGetCached ecd ecache key now = some r2 →
      ∃ ts2, ecache.lookup key = some (ts2, r2) ∧ now - ts2 < ecd) ∧
    (ecache.lookup key = some (ts, r) → now - ts < ecd →
      engineGetCached ecd ecache key now = some r) := by
  refine ⟨?_, ?_, ?_, ?_⟩
  · intro r2 h
    unfold vlCacheGet at h
    cases hl : cache.lookup key with
    | none => rw [hl] at h; cases h
    | some p =>
      obtain ⟨ts2, r3⟩ := p
      rw [hl] at h
      simp only [] at h
      split_ifs at h with h1 h2; cases h
      exact ⟨ts2, rfl, le_of_not_lt h1⟩
  · intro hl hage enabled client rateOk remote ms
    have hget : vlCacheGet ttl cd cache key now = some r := by
      unfold vlCacheGet
      rw [hl]
      have h1 : ¬ ttl < now - ts := not_lt.mpr (le_trans (le_of_lt hage) hcd)
      simp [h1, hage]
    unfold vlCachedCallE
    rw [hget]
  · intro r2 h
    unfold engineGetCached at h
    cases hl : ecache.lookup key with
    | none => rw [hl] at h; cases h
    | some p =>
      obtain ⟨ts2, r3⟩ := p
      rw [hl] at h
      simp only [] at h
      split_ifs at h with h1; cases h
      exact ⟨ts2, rfl, h1⟩
  · intro hl hage
    unfold engineGetCached
    rw [hl]
    simp [hage]

/-- Witness for C6 at concrete caches: an entry of age 1 with cooldown 2 and
TTL 30 is served from the VL cache without a remote call, and likewise from
the engine cache. -/
theorem c6_cache_ttl_cooldown_witness :
    vlCachedCallE 30 2 [("k", (0, neutralOracle))] "k" 1 true true true
        (.ok none) 0 = .ok (neutralOracle, false) ∧
    engineGetCached 2 [("k", (0, neutralOracle))] "k" 1 = some neutralOracle := by
  have h := c6_cache_ttl_cooldown 30 2 2 [("k", (0, neutralOracle))]
    [("k", (0, neutralOracle))] "k" 1 0 neutralOracle (by norm_num)
  exact ⟨h.2.1 rfl (by norm_num) true true true (.ok none) 0,
    h.2.2.2 rfl (by norm_num)⟩

/-! ## C7: threshold for a category absent from the policy -/

/-- C7 — counterexample.  With the post-load-failure policy (only a `Normal`
rule with threshold 999), the effective threshold of the engine for the absent
category `Ad` is the hard-coded default 80, not the 999 of the Normal rule: there
is no fallback to the `Normal` entry, and a score-85 Ad candidate is blocked
(it would pass under a 999 threshold). -/
theorem c7_no_normal_fallback_counterexample :
    effectiveThreshold defaultPolicyOnLoadFailure none "Ad" = 80 ∧
    (defaultPolicyOnLoadFailure.lookup "Normal").map PolicyRule.risk_threshold =
      some (some 999) ∧
    (djSoft defaultPolicyOnLoadFailure none
        (some { category := "Ad", risk_score := 85, evidence_strength := 2,
                evidence_spans := ["加v"], visual_evidence := "",
                is_whitelist := false, reason := "r" }) none false false).final.action
      = "拦截" ∧
    ¬((80 : Int) = 999) := by
  refine ⟨rfl, rfl, by decide, by decide⟩

/-- C7 — amended.  For a chosen category absent from the loaded policy mapping
(and no override), the effective threshold of the fusion engine is the hard-coded
default 80; the `Normal` entry is not consulted. -/
theorem c7_amended_unknown_category_default (policy : List (String × PolicyRule))
    (category : String) (h : policy.lookup category = none) :
    effectiveThreshold policy none category = 80 := by
  unfold effectiveThreshold
  rw [h]

/-- Witness for the amended C7: the post-load-failure policy has no `Ad`
entry, and the effective threshold for `Ad` is 80. -/
theorem c7_amended_unknown_category_default_witness :
    defaultPolicyOnLoadFailure.lookup "Ad" = none ∧
    effectiveThreshold defaultPolicyOnLoadFailure none "Ad" = 80 :=
  ⟨rfl, c7_amended_unknown_category_default defaultPolicyOnLoadFailure "Ad" rfl⟩

/-! ## C10: QR decode forces a hard block -/

/-- C10 — confirmed.  Whenever the QR fast check decodes at least one
non-empty payload, `process_frame` appends a synthetic `qr_code` detection
(confidence 0.99) to the object list, and with hard blocking enabled
`detect_and_judge` blocks the frame with score 95, whatever the YOLO
detections, texts, skin signals, caches or oracles are. -/
theorem c10_qr_decode_hard_blocks (framePath : String)
    (yoloObjs : List DetectedObj) (decodedInfo : List String)
    (skinRatio trigger : ℚ) (texts : List String)
    (policy : List (String × PolicyRule)) (md5 : Option String)
    (cT cS : Option L2Record) (tO sO : L2Record) (ov : Option Int)
    (hdec : ∃ d ∈ decodedInfo, d ≠ "") :
    (qrFastDetect true decodedInfo).found = true ∧
    ({ label := "qr_code", conf := some (99 / 100), bbox := none } : DetectedObj) ∈
      (processFrame framePath yoloObjs (qrFastDetect true decodedInfo)
        skinRatio trigger texts).objects ∧
    (detect_and_judge policy
        (processFrame framePath yoloObjs (qrFastDetect true decodedInfo)
          skinRatio trigger texts)
        md5 cT cS tO sO ov true).final.risk_score = 95 ∧
    (detect_and_judge policy
        (processFrame framePath yoloObjs (qrFastDetect true decodedInfo)
          skinRatio trigger texts)
        md5 cT cS tO sO ov true).final.action = "拦截" := by
  obtain ⟨d, hd, hdne⟩ := hdec
  have hfound : (qrFastDetect true decodedInfo).found = true := by
    unfold qrFastDetect
    have hne : decodedInfo.isEmpty = false := by
      simp [List.isEmpty_iff]
      exact List.ne_nil_of_mem hd
    simp only [hne, Bool.not_true, Bool.not_false, Bool.false_or, if_false]
    simp [List.isEmpty_iff]
    exact ⟨d, hd, hdne⟩
  have hqr : ({ label := "qr_code", conf := some (99 / 100), bbox := none } : DetectedObj) ∈
      (processFrame framePath yoloObjs (qrFastDetect true decodedInfo)
        skinRatio trigger texts).objects := by
    show _ ∈ processObjects yoloObjs (qrFastDetect true decodedInfo).found
    unfold processObjects
    rw [hfound]
    simp
  have hhard := detect_and_judge_hard policy
    (processFrame framePath yoloObjs (qrFastDetect true decodedInfo)
      skinRatio trigger texts) md5 cT cS tO sO ov
    (hard_hits_ne_nil_of_mem _ ⟨_, hqr, by decide⟩)
  exact ⟨hfound, hqr, by rw [hhard]; rfl, by rw [hhard]; rfl⟩

/-- Witness for C10 at a concrete frame: one decoded QR payload blocks with
score 95. -/
theorem c10_qr_decode_hard_blocks_witness :
    (∃ d ∈ ["https://t.example"], d ≠ "") ∧
    (detect_and_judge defaultPolicyOnLoadFailure
        (processFrame "f.jpg" [] (qrFastDetect true ["https://t.example"])
          0 (18 / 100) [])
        (some "m") none none neutralOracle neutralOracle none true).final.action =
      "拦截" := by
  have hex : ∃ d ∈ ["https://t.example"], d ≠ "" := ⟨"https://t.example", by decide, by decide⟩
  have h := c10_qr_decode_hard_blocks "f.jpg" [] ["https://t.example"] 0 (18 / 100)
    [] defaultPolicyOnLoadFailure (some "m") none none neutralOracle neutralOracle
    none hex
  exact ⟨hex, h.2.2.2⟩

/-! ## C1: a malformed remote response on the visual path raises -/

/-- Skin-triggered frame with nothing else going on. -/
def skinOnlyL1 : L1Result :=
  { framePath := "f.jpg", objects := [], texts := []
    hs := { skinRatio := 1 / 2, skinTrigger := true, qrFound := false } }

/-- C1 — code bug.  The spec requires every collaborator failure to degrade to
a neutral record before the fusion boundary, but on the visual path it does
not: with the skin gate triggered and a cold cache, a backend reply whose
`risk_score` is the non-numeric string "high" makes the `int()` conversion in
`_vl_cached_call` raise `ValueError`; `review_visual_sexual` and
`detect_and_judge` install no handler, so the exception escapes `decide()`
instead of producing a `FinalDecision`. -/
theorem c1_visual_malformed_response_raises :
    detect_and_judgeE defaultPolicyOnLoadFailure skinOnlyL1 (some "m") none none
      neutralOracle
      ((reviewVisualSexualE (some "m") true 30 2 [] 100 true true true
          (.ok (some (.jobj [("risk_score", .jstr "high")]))) 5).map Prod.fst)
      none true = .error "ValueError" := rfl

end ContentRisk
